import Mathlib

set_option maxRecDepth 8000

/-!
Verification of the minichain voice subsystem (src/minichain/voice/*).

The embedding models:
* `WebRtcVAD.is_speech` (vad/webrtc.py) with its frame-length validation;
* `AudioSink` (audio.py) as an explicit state with the playback queue, the
  `unfinished_tasks` counter of the Python `queue.Queue`, the `_running`
  event and the playback thread;
* `VoicePipeline` (pipeline.py): the per-frame body of `_pipeline_loop`,
  the `queue.Empty` poll branch, `stop()`, and the utterance-processing
  task `_handle_processing_and_speaking` broken at its shared-state
  read/write points so that it can interleave with the main loop.

Wall-clock times are modelled in integer milliseconds.  Collaborators
(VAD classifier, STT, LLM+TTS stream) are oracle parameters; an oracle
returning `none` models the collaborator raising an exception.
-/

namespace Minichain

/-- A PCM byte buffer (one byte per list entry). -/
abbrev Frame := List Nat

/-- audio.py: CHANNELS = 1. -/
def CHANNELS : Nat := 1

/-- audio.py: RATE = 16000. -/
def RATE : Nat := 16000

/-- vad/webrtc.py: SAMPLE_WIDTH = 2. -/
def SAMPLE_WIDTH : Nat := 2

/-- vad/webrtc.py: FRAMES_PER_10_MS = RATE / 100. -/
def FRAMES_PER_10_MS : Nat := RATE / 100

/-- vad/webrtc.py: BYTES_PER_10_MS = FRAMES_PER_10_MS * SAMPLE_WIDTH * CHANNELS. -/
def BYTES_PER_10_MS : Nat := FRAMES_PER_10_MS * SAMPLE_WIDTH * CHANNELS

/-- vad/webrtc.py: VALID_CHUNK_SIZES, the three legal frame byte lengths. -/
def VALID_CHUNK_SIZES : List Nat :=
  [BYTES_PER_10_MS, BYTES_PER_10_MS * 2, BYTES_PER_10_MS * 3]

namespace WebRtcVAD

/-- vad/webrtc.py `WebRtcVAD.is_speech`: reject a chunk whose byte length is
not one of `VALID_CHUNK_SIZES`, otherwise return the underlying
classifier's verdict.  The wrapped `webrtcvad.Vad` classifier is the
`classifier` parameter. -/
def is_speech (classifier : Frame → Bool) (chunk : Frame) : Except String Bool :=
  if chunk.length ∈ VALID_CHUNK_SIZES then
    Except.ok (classifier chunk)
  else
    Except.error "Invalid chunk size for VAD."

end WebRtcVAD

/-- An audio chunk handed to the sink. -/
abbrev Chunk := List Nat

/-- The state of an `AudioSink` (audio.py): the playback queue contents
(`none` is the `None` sentinel), the `unfinished_tasks` counter of the
Python `queue.Queue` (incremented by `put`, decremented by `task_done`),
the `_running` event, whether the playback thread is still inside its
loop, and the chunks written to the output stream so far. -/
structure SinkState where
  queue : List (Option Chunk)
  unfinishedTasks : Nat
  running : Bool
  threadAlive : Bool
  played : List Chunk
deriving DecidableEq

namespace AudioSink

/-- audio.py `AudioSink.play_chunk`: `self.audio_queue.put(chunk)` —
appends the chunk and increments `unfinished_tasks`. -/
def play_chunk (s : SinkState) (c : Chunk) : SinkState :=
  { s with queue := s.queue ++ [some c],
           unfinishedTasks := s.unfinishedTasks + 1 }

/-- audio.py `AudioSink.stop`: clears `_running`, then clears the
underlying deque (`self.audio_queue.queue.clear()` — note this does NOT
touch `unfinished_tasks`), then puts the `None` sentinel (which DOES
increment `unfinished_tasks`). -/
def stop (s : SinkState) : SinkState :=
  { s with running := false,
           queue := [none],
           unfinishedTasks := s.unfinishedTasks + 1 }

/-- One iteration of `AudioSink._playback_loop` starting at the `while`
condition: if `_running` is cleared the loop exits; otherwise `get` either
times out on an empty queue (continue) or pops the head: the sentinel
causes `task_done` and `break`; a chunk is written when the stream is open
and `_running` is still set, then `task_done` is called. -/
def loopIter (s : SinkState) : SinkState :=
  if s.threadAlive = false then s
  else if s.running = false then { s with threadAlive := false }
  else
    match s.queue with
    | [] => s
    | none :: rest =>
        { s with queue := rest,
                 unfinishedTasks := s.unfinishedTasks - 1,
                 threadAlive := false }
    | some c :: rest =>
        { s with queue := rest,
                 played := if s.running then s.played ++ [c] else s.played,
                 unfinishedTasks := s.unfinishedTasks - 1 }

/-- The playback thread already past the `while` check and blocked inside
`get` when an item arrives: the sentinel causes `task_done` and `break`; a
chunk is written only if `_running` is still set, then `task_done`. -/
def getReturns (s : SinkState) : SinkState :=
  if s.threadAlive = false then s
  else
    match s.queue with
    | [] => s
    | none :: rest =>
        { s with queue := rest,
                 unfinishedTasks := s.unfinishedTasks - 1,
                 threadAlive := false }
    | some c :: rest =>
        { s with queue := rest,
                 played := if s.running then s.played ++ [c] else s.played,
                 unfinishedTasks := s.unfinishedTasks - 1 }

/-- audio.py `AudioSink.join` (`self.audio_queue.join()`) unblocks exactly
when `unfinished_tasks` reaches zero. -/
def joinUnblocked (s : SinkState) : Prop :=
  s.unfinishedTasks = 0

/-- The operations that can act on a sink after some point in time:
client enqueues, playback-loop iterations, a `get` waking up, and further
`stop()` calls. -/
inductive SinkOp
  | play (c : Chunk)
  | loopIter
  | getReturns
  | stopCall
deriving DecidableEq

/-- Apply one sink operation. -/
def applyOp (s : SinkState) : SinkOp → SinkState
  | .play c => play_chunk s c
  | .loopIter => loopIter s
  | .getReturns => getReturns s
  | .stopCall => stop s

/-- Run a sequence of sink operations. -/
def runOps (s : SinkState) : List SinkOp → SinkState
  | [] => s
  | op :: rest => runOps (applyOp s op) rest

end AudioSink

/-- state.py `VoiceState`: the enum has five members, including
`INTERRUPTED` which the pipeline never assigns. -/
inductive VoiceState
  | IDLE
  | LISTENING
  | PROCESSING
  | SPEAKING
  | INTERRUPTED
deriving DecidableEq

/-- core/types.py messages as appended by the pipeline: `HumanMessage`
and `AIMessage`, each carrying its content string. -/
inductive Msg
  | human (content : String)
  | ai (content : String)
deriving DecidableEq

/-- `true` exactly on `HumanMessage`s. -/
def isHumanMsg : Msg → Bool
  | .human _ => true
  | .ai _ => false

/-- Python `str.isspace`-style whitespace, as stripped by `str.strip()`. -/
def pyIsSpace (c : Char) : Bool :=
  c == ' ' || c == '\t' || c == '\n' || c == '\r' ||
    c == Char.ofNat 11 || c == Char.ofNat 12

/-- Python `str.strip()`: drop leading and trailing whitespace. -/
def pyStrip (s : String) : String :=
  String.mk (((s.data.dropWhile pyIsSpace).reverse.dropWhile pyIsSpace).reverse)

/-- Observable side effects of the pipeline and of the utterance task, in
program order: `AudioSink.stop()` / `join()` / `play_chunk`, each write
to `self.state`, the `llm.stream` and `tts.stream` calls, the buffer
handed to a spawned `_handle_processing_and_speaking` thread, and
`_clear_audio_queue`. -/
inductive Act
  | sinkStop
  | sinkJoin
  | sinkPlay (c : Nat)
  | setState (v : VoiceState)
  | llmCall
  | ttsCall
  | handBuffer (buf : List Frame)
  | clearAudioQueue
deriving DecidableEq

/-- The utterance-processing task `_handle_processing_and_speaking`,
split at its shared-state read/write points: about to run STT over the
handed buffer; about to pull/play the remaining TTS audio chunks (a
`none` entry means the LLM/TTS stream raises at that pull); about to run
the final `if self.state == SPEAKING` block after `sink.join()`. -/
inductive TaskPhase
  | sttPhase (audio : List Frame)
  | playPhase (stream : List (Option Nat))
  | finishPhase
deriving DecidableEq

/-- pipeline.py `VoicePipeline.__init__` tunables, in milliseconds. -/
structure PipelineConfig where
  end_of_speech_timeout : Nat := 800
  max_phrase_duration : Nat := 20000
deriving DecidableEq

/-- The collaborators consumed by the pipeline.  `vad` is
`BaseVAD.is_speech` (`none` = raises); `stt` is the joined transcript of
`stt.stream` over the handed frames (`none` = raises); `tts` is the
flattened audio-chunk stream produced by `llm.stream` over the history
followed by the sentence splitter and `tts.stream` (a `none` element =
the stream raises at that pull). -/
structure Oracles where
  vad : Frame → Option Bool
  stt : List Frame → Option String
  tts : List Msg → String → List (Option Nat)

/-- The shared mutable state of a `VoicePipeline` together with the local
variables of `_pipeline_loop` (`voice_buffer`, `speech_started_at`,
`silence_started_at`; 0 means unset, as in the source) and the phase of
the at-most-one utterance-processing task. `log` accumulates observable
side effects. -/
structure PipeState where
  state : VoiceState
  voice_buffer : List Frame
  speech_started_at : Nat
  silence_started_at : Nat
  conversation_history : List Msg
  task : Option TaskPhase
  log : List Act

/-- Events driving the system: a frame popped from the audio queue at
time `t`, a `queue.Empty` poll timeout at time `t`, one step of the
utterance-processing task, and a `VoicePipeline.stop()` call. -/
inductive Ev
  | frame (t : Nat) (chunk : Frame)
  | timeoutPoll (t : Nat)
  | taskStep
  | stopCall

namespace VoicePipeline

/-- One transition of the system, mirroring pipeline.py:

* `frame`: the body of the `try` block of `_pipeline_loop` — VAD first
  (an exception lands in `except Exception`, which only sets
  `self.state = IDLE`); then the interruption branch (`SPEAKING` and
  speech: `sink.stop()`, bounded join of the task, state `LISTENING`,
  reset timers, buffer restarted with this chunk); then the
  `IDLE`-and-speech branch; then the `LISTENING` branch (append frame,
  maintain the silence timer, and on `now - speech_started_at >
  max_phrase_duration` — strict, as in the source — or `silence_started_at
  > 0 and now - silence_started_at >= end_of_speech_timeout`, transition
  to `PROCESSING` and hand a copy of the buffer to a new task).
* `timeoutPoll`: the `except queue.Empty` branch (silence timeout only).
* `stopCall`: `VoicePipeline.stop()` — sets `self.state = IDLE`.
* `taskStep`: one phase of `_handle_processing_and_speaking`: STT, then
  for each pulled audio chunk the cooperative `self.state != SPEAKING`
  check before `play_chunk`, then `sink.join()` and the final completion
  block; any collaborator exception sets `self.state = IDLE`. -/
def step (cfg : PipelineConfig) (o : Oracles) (s : PipeState) : Ev → PipeState
  | .frame t chunk =>
    match o.vad chunk with
    | none => { s with state := .IDLE, log := s.log ++ [.setState .IDLE] }
    | some sp =>
      if s.state = .SPEAKING ∧ sp then
        { s with state := .LISTENING,
                 speech_started_at := t,
                 silence_started_at := 0,
                 voice_buffer := [chunk],
                 log := s.log ++ [.sinkStop, .setState .LISTENING] }
      else if s.state = .IDLE ∧ sp then
        { s with state := .LISTENING,
                 speech_started_at := t,
                 silence_started_at := 0,
                 voice_buffer := s.voice_buffer ++ [chunk],
                 log := s.log ++ [.setState .LISTENING] }
      else if s.state = .LISTENING then
        let buf := s.voice_buffer ++ [chunk]
        let sil := if sp then 0
                   else if s.silence_started_at = 0 then t
                   else s.silence_started_at
        if cfg.max_phrase_duration < t - s.speech_started_at ∨
           (0 < sil ∧ cfg.end_of_speech_timeout ≤ t - sil) then
          { s with state := .PROCESSING,
                   voice_buffer := [],
                   silence_started_at := sil,
                   task := some (.sttPhase buf),
                   log := s.log ++ [.setState .PROCESSING, .handBuffer buf] }
        else
          { s with voice_buffer := buf, silence_started_at := sil }
      else s
  | .timeoutPoll t =>
      if s.state = .LISTENING ∧ 0 < s.silence_started_at ∧
         cfg.end_of_speech_timeout ≤ t - s.silence_started_at then
        { s with state := .PROCESSING,
                 voice_buffer := [],
                 task := some (.sttPhase s.voice_buffer),
                 log := s.log ++ [.setState .PROCESSING, .handBuffer s.voice_buffer] }
      else s
  | .stopCall => { s with state := .IDLE, log := s.log ++ [.setState .IDLE] }
  | .taskStep =>
    match s.task with
    | none => s
    | some (.sttPhase audio) =>
      match o.stt audio with
      | none =>
          { s with state := .IDLE, task := none, log := s.log ++ [.setState .IDLE] }
      | some user_text =>
        if pyStrip user_text = "" then
          { s with state := .IDLE, task := none, log := s.log ++ [.setState .IDLE] }
        else
          { s with conversation_history := s.conversation_history ++ [.human user_text],
                   state := .SPEAKING,
                   task := some (.playPhase
                     (o.tts (s.conversation_history ++ [.human user_text]) user_text)),
                   log := s.log ++ [.setState .SPEAKING, .llmCall, .ttsCall] }
    | some (.playPhase stream) =>
      match stream with
      | [] => { s with task := some .finishPhase, log := s.log ++ [.sinkJoin] }
      | none :: _ =>
          { s with state := .IDLE, task := none, log := s.log ++ [.setState .IDLE] }
      | some c :: rest =>
        if s.state = .SPEAKING then
          { s with task := some (.playPhase rest), log := s.log ++ [.sinkPlay c] }
        else
          { s with task := none }
    | some .finishPhase =>
      if s.state = .SPEAKING then
        { s with state := .IDLE,
                 task := none,
                 log := s.log ++ [.clearAudioQueue, .setState .IDLE] }
      else
        { s with task := none }

/-- Run a sequence of events. -/
def runEvents (cfg : PipelineConfig) (o : Oracles) (s : PipeState) : List Ev → PipeState
  | [] => s
  | e :: rest => runEvents cfg o (step cfg o s e) rest

/-- The sequence of values taken by `self.state` along a run, starting
with the current one. -/
def stateTrace (cfg : PipelineConfig) (o : Oracles) (s : PipeState) : List Ev → List VoiceState
  | [] => [s.state]
  | e :: rest => s.state :: stateTrace cfg o (step cfg o s e) rest

/-- The pipeline state right after `start()`: state `IDLE`, empty buffer
and history, no task. -/
def start : PipeState :=
  { state := .IDLE, voice_buffer := [], speech_started_at := 0,
    silence_started_at := 0, conversation_history := [], task := none, log := [] }

end VoicePipeline

/-- The transition graph of spec section 4.4: the six documented edges. -/
def specEdge : VoiceState → VoiceState → Bool
  | .IDLE, .LISTENING => true
  | .LISTENING, .PROCESSING => true
  | .PROCESSING, .SPEAKING => true
  | .PROCESSING, .IDLE => true
  | .SPEAKING, .IDLE => true
  | .SPEAKING, .LISTENING => true
  | _, _ => false

/-- The edges the implementation can actually take: the six spec edges
plus `LISTENING → IDLE` (main-loop exception handler and `stop()`) and
`IDLE → SPEAKING` / `LISTENING → SPEAKING` (the task's unconditional
begin-speaking write after an error or `stop()` has meanwhile moved the
state away from `PROCESSING`). -/
def implEdge : VoiceState → VoiceState → Bool
  | .LISTENING, .IDLE => true
  | .IDLE, .SPEAKING => true
  | .LISTENING, .SPEAKING => true
  | a, b => specEdge a b

/-- Every consecutive pair of a trace is either no change or an edge
admitted by `f`. -/
def chainOK (f : VoiceState → VoiceState → Bool) : List VoiceState → Bool
  | a :: b :: rest => (a == b || f a b) && chainOK f (b :: rest)
  | _ => true

/-- The buffers handed to spawned utterance-processing tasks, in order. -/
def handedBuffers (log : List Act) : List (List Frame) :=
  log.filterMap (fun a => match a with | .handBuffer b => some b | _ => none)

/-- How many times a trace takes the edge `a → b`. -/
def edgeCount (a b : VoiceState) : List VoiceState → Nat
  | x :: y :: rest => (if x = a ∧ y = b then 1 else 0) + edgeCount a b (y :: rest)
  | _ => 0

/-! ## Theorems -/

/-- C6: for every byte string whose length is one of 320/640/960,
`WebRtcVAD.is_speech` does not raise and returns the classifier's
boolean; for every other length it always raises. -/
theorem C6_is_speech_length (classifier : Frame → Bool) (chunk : Frame) :
    (chunk.length ∈ VALID_CHUNK_SIZES →
      WebRtcVAD.is_speech classifier chunk = Except.ok (classifier chunk)) ∧
    (chunk.length ∉ VALID_CHUNK_SIZES →
      WebRtcVAD.is_speech classifier chunk =
        Except.error "Invalid chunk size for VAD.") := by
  constructor <;> intro h <;> simp [WebRtcVAD.is_speech, h]

/-- Witness for C6 at a 320-byte frame and a 3-byte frame. -/
theorem C6_is_speech_length_witness :
    WebRtcVAD.is_speech (fun _ => true) (List.replicate 320 0) = Except.ok true ∧
    WebRtcVAD.is_speech (fun _ => true) [0, 0, 0] =
      Except.error "Invalid chunk size for VAD." := by
  constructor
  · exact (C6_is_speech_length (fun _ => true) (List.replicate 320 0)).1 (by decide)
  · exact (C6_is_speech_length (fun _ => true) [0, 0, 0]).2 (by decide)

/-- One sink operation preserves the deficit between `unfinished_tasks`
and the queue length: chunks discarded by `stop()` are never
`task_done`-acknowledged, so the counter stays at least `k` above the
queue length. -/
theorem sink_deficit_op (k : Nat) (s : SinkState) (op : AudioSink.SinkOp)
    (h : s.queue.length + k ≤ s.unfinishedTasks) :
    (AudioSink.applyOp s op).queue.length + k ≤
      (AudioSink.applyOp s op).unfinishedTasks := by
  obtain ⟨q, u, r, a, p⟩ := s
  simp only at h
  cases op with
  | play c =>
      simp only [AudioSink.applyOp, AudioSink.play_chunk, List.length_append,
        List.length_cons, List.length_nil]
      omega
  | loopIter =>
      cases a <;> cases r <;>
        rcases q with _ | ⟨_ | c, rest⟩ <;>
          simp_all [AudioSink.applyOp, AudioSink.loopIter] <;> omega
  | getReturns =>
      cases a <;>
        rcases q with _ | ⟨_ | c, rest⟩ <;>
          simp_all [AudioSink.applyOp, AudioSink.getReturns] <;> omega
  | stopCall =>
      simp only [AudioSink.applyOp, AudioSink.stop, List.length_cons, List.length_nil]
      omega

/-- The deficit invariant holds along every sequence of sink operations. -/
theorem sink_deficit_runOps (k : Nat) (s : SinkState) (ops : List AudioSink.SinkOp)
    (h : s.queue.length + k ≤ s.unfinishedTasks) :
    (AudioSink.runOps s ops).queue.length + k ≤
      (AudioSink.runOps s ops).unfinishedTasks := by
  induction ops generalizing s with
  | nil => exact h
  | cons op rest ih => exact ih _ (sink_deficit_op k s op h)

/-- C7 (refuting the claimed boundedness): on a sink whose
`unfinished_tasks` counter matches its queue contents, if any chunk is
pending when `stop()` runs, then after `stop()` no sequence of further
operations ever brings `unfinished_tasks` back to zero — `stop()` clears
the deque without crediting `task_done` for the discarded chunks — so a
subsequent `join()` blocks forever. -/
theorem C7_stop_join_deadlock (s : SinkState) (ops : List AudioSink.SinkOp)
    (hsync : s.unfinishedTasks = s.queue.length)
    (hpending : s.queue ≠ []) :
    ¬ AudioSink.joinUnblocked (AudioSink.runOps (AudioSink.stop s) ops) := by
  have hq : 0 < s.queue.length := List.length_pos.mpr hpending
  have h0 : (AudioSink.stop s).queue.length + s.queue.length ≤
      (AudioSink.stop s).unfinishedTasks := by
    simp [AudioSink.stop]
    omega
  have h := sink_deficit_runOps s.queue.length (AudioSink.stop s) ops h0
  simp only [AudioSink.joinUnblocked]
  omega

/-- Witness for C7: a running sink with one pending unplayed chunk;
after `stop()` and two further playback-loop iterations, `join()` is
still blocked. -/
theorem C7_stop_join_deadlock_witness :
    ¬ AudioSink.joinUnblocked (AudioSink.runOps
        (AudioSink.stop
          { queue := [some [1, 2]], unfinishedTasks := 1, running := true,
            threadAlive := true, played := [] })
        [.loopIter, .loopIter]) :=
  C7_stop_join_deadlock
    { queue := [some [1, 2]], unfinishedTasks := 1, running := true,
      threadAlive := true, played := [] }
    [.loopIter, .loopIter] (by decide) (by decide)

/-- After `_running` is cleared, no sink operation ever writes a chunk
to the output device, and `_running` stays cleared. -/
theorem sink_stopped_frozen (s : SinkState) (ops : List AudioSink.SinkOp)
    (h : s.running = false) :
    (AudioSink.runOps s ops).played = s.played ∧
    (AudioSink.runOps s ops).running = false := by
  induction ops generalizing s with
  | nil => exact ⟨rfl, h⟩
  | cons op rest ih =>
    have hstep : (AudioSink.applyOp s op).played = s.played ∧
        (AudioSink.applyOp s op).running = false := by
      obtain ⟨q, u, r, a, p⟩ := s
      simp only at h
      subst h
      cases op with
      | play c => simp [AudioSink.applyOp, AudioSink.play_chunk]
      | loopIter =>
          cases a <;> rcases q with _ | ⟨_ | c, rest⟩ <;>
            simp [AudioSink.applyOp, AudioSink.loopIter]
      | getReturns =>
          cases a <;> rcases q with _ | ⟨_ | c, rest⟩ <;>
            simp [AudioSink.applyOp, AudioSink.getReturns]
      | stopCall => simp [AudioSink.applyOp, AudioSink.stop]
    have ihr := ih (AudioSink.applyOp s op) hstep.2
    simp only [AudioSink.runOps]
    exact ⟨ihr.1.trans hstep.1, ihr.2⟩

/-- C10: once `stop()` has been called, the playback session is over for
good: whatever mix of `play_chunk` calls, playback-loop iterations,
`get` wakeups and further `stop()` calls follows, nothing more is ever
written to the output device and `_running` never becomes set again
(only `__enter__` sets it). -/
theorem C10_stop_permanent (s : SinkState) (ops : List AudioSink.SinkOp) :
    (AudioSink.runOps (AudioSink.stop s) ops).played = s.played ∧
    (AudioSink.runOps (AudioSink.stop s) ops).running = false := by
  have h := sink_stopped_frozen (AudioSink.stop s) ops (by simp [AudioSink.stop])
  exact ⟨h.1.trans (by simp [AudioSink.stop]), h.2⟩

/-- Every single transition of the system either leaves `self.state`
unchanged or takes an edge of `implEdge`, and never produces the unused
enum value `INTERRUPTED`. -/
theorem step_state_edge (cfg : PipelineConfig) (o : Oracles) (s : PipeState) (e : Ev)
    (h : s.state ≠ .INTERRUPTED) :
    ((VoicePipeline.step cfg o s e).state = s.state ∨
      implEdge s.state (VoicePipeline.step cfg o s e).state = true) ∧
    (VoicePipeline.step cfg o s e).state ≠ .INTERRUPTED := by
  cases e with
  | frame t chunk =>
      cases hv : o.vad chunk with
      | none =>
          cases hs : s.state <;>
            simp_all [VoicePipeline.step, implEdge, specEdge]
      | some sp =>
          cases hs : s.state <;> cases sp <;>
            simp_all [VoicePipeline.step, implEdge, specEdge] <;>
              try (split_ifs <;> simp_all)
  | timeoutPoll t =>
      cases hs : s.state <;>
        (simp_all [VoicePipeline.step, implEdge, specEdge];
          try (split_ifs <;> simp_all))
  | stopCall =>
      cases hs : s.state <;>
        simp_all [VoicePipeline.step, implEdge, specEdge]
  | taskStep =>
      cases ht : s.task with
      | none => simp_all [VoicePipeline.step]
      | some ph =>
          cases ph with
          | sttPhase audio =>
              cases hstt : o.stt audio with
              | none =>
                  cases hs : s.state <;>
                    simp_all [VoicePipeline.step, implEdge, specEdge]
              | some user_text =>
                  cases hs : s.state <;>
                    simp_all [VoicePipeline.step, implEdge, specEdge] <;>
                      try (split_ifs <;> simp_all)
          | playPhase stream =>
              rcases stream with _ | ⟨_ | c, rest⟩ <;>
                cases hs : s.state <;>
                  simp_all [VoicePipeline.step, implEdge, specEdge]
          | finishPhase =>
              cases hs : s.state <;>
                simp_all [VoicePipeline.step, implEdge, specEdge]

/-- A state trace always starts with the current state. -/
theorem stateTrace_head (cfg : PipelineConfig) (o : Oracles) (s : PipeState)
    (evs : List Ev) :
    ∃ tl, VoicePipeline.stateTrace cfg o s evs = s.state :: tl := by
  cases evs <;> exact ⟨_, rfl⟩

/-- Along any run from a state other than `INTERRUPTED`, consecutive
states only differ along `implEdge` and `INTERRUPTED` never occurs. -/
theorem trace_chain (cfg : PipelineConfig) (o : Oracles) :
    ∀ (evs : List Ev) (s : PipeState), s.state ≠ .INTERRUPTED →
      chainOK implEdge (VoicePipeline.stateTrace cfg o s evs) = true ∧
      (VoicePipeline.stateTrace cfg o s evs).all
        (fun v => !(v == VoiceState.INTERRUPTED)) = true := by
  intro evs
  induction evs with
  | nil =>
      intro s h
      constructor
      · rfl
      · simp [VoicePipeline.stateTrace, h]
  | cons e rest ih =>
      intro s h
      have hstep := step_state_edge cfg o s e h
      have ihr := ih (VoicePipeline.step cfg o s e) hstep.2
      obtain ⟨tl, htl⟩ := stateTrace_head cfg o (VoicePipeline.step cfg o s e) rest
      have hexp : VoicePipeline.stateTrace cfg o s (e :: rest) =
          s.state :: VoicePipeline.stateTrace cfg o (VoicePipeline.step cfg o s e) rest :=
        rfl
      have hedge : (s.state == (VoicePipeline.step cfg o s e).state ||
          implEdge s.state (VoicePipeline.step cfg o s e).state) = true := by
        rcases hstep.1 with h1 | h1
        · simp [h1]
        · simp [h1]
      constructor
      · rw [hexp, htl]
        simp only [chainOK, Bool.and_eq_true]
        exact ⟨hedge, htl ▸ ihr.1⟩
      · rw [hexp]
        simp only [List.all_cons, Bool.and_eq_true]
        exact ⟨by simp [h], ihr.2⟩

/-- C1 (amended): from the initial state, the conversation state only
ever changes along the six documented edges extended with
`LISTENING → IDLE` (main-loop exception handler, `stop()`) and
`IDLE → SPEAKING` / `LISTENING → SPEAKING` (the utterance task's
unconditional begin-speaking write after an error or `stop()` has
meanwhile moved the state), and the unused enum value `INTERRUPTED` is
never entered. -/
theorem C1_state_graph (cfg : PipelineConfig) (o : Oracles) (evs : List Ev) :
    chainOK implEdge (VoicePipeline.stateTrace cfg o VoicePipeline.start evs) = true ∧
    (VoicePipeline.stateTrace cfg o VoicePipeline.start evs).all
      (fun v => !(v == VoiceState.INTERRUPTED)) = true :=
  trace_chain cfg o evs VoicePipeline.start (by simp [VoicePipeline.start])

/-- The default tunables of `VoicePipeline.__init__`, in milliseconds:
`end_of_speech_timeout = 0.8 s`, `max_phrase_duration = 20 s`. -/
def cfg0 : PipelineConfig := {}

/-- A concrete classifier for the wrapped `webrtcvad.Vad`: a frame is
speech exactly when its first byte is 1. -/
def classifier0 : Frame → Bool := fun f => f.headD 0 == 1

/-- The pipeline's VAD given by `WebRtcVAD.is_speech` over `classifier0`
(`none` when it raises on an invalid frame length). -/
def vad0 : Frame → Option Bool := fun c => (WebRtcVAD.is_speech classifier0 c).toOption

/-- A 320-byte (10 ms) speech frame. -/
def speechFrame : Frame := List.replicate 320 1

/-- A 320-byte (10 ms) silence frame. -/
def silenceFrame : Frame := List.replicate 320 0

/-- Concrete collaborators: the VAD above, an STT returning "hi", and an
LLM/TTS stream yielding one audio chunk. -/
def oracle0 : Oracles :=
  { vad := vad0, stt := fun _ => some "hi", tts := fun _ _ => [some 7] }

/-- C1 counterexample: a speech frame followed by a frame of invalid
length (the VAD raises, the main loop's exception handler forces
`IDLE`) drives the state `IDLE → LISTENING → IDLE`; the edge
`LISTENING → IDLE` is outside the documented graph, so the claim as
stated is false. -/
theorem C1_counterexample :
    VoicePipeline.stateTrace cfg0 oracle0 VoicePipeline.start
        [.frame 1000 speechFrame, .frame 1020 [0]] =
      [.IDLE, .LISTENING, .IDLE] ∧
    chainOK specEdge
      (VoicePipeline.stateTrace cfg0 oracle0 VoicePipeline.start
        [.frame 1000 speechFrame, .frame 1020 [0]]) = false := by
  constructor <;> rfl

/-- C2: in state `SPEAKING`, processing one frame the VAD classifies as
speech performs, in program order, `AudioSink.stop()` and then the write
of `LISTENING`, and restarts the utterance buffer so that it holds
exactly the injected frame, with no carry-over. -/
theorem C2_interruption (cfg : PipelineConfig) (o : Oracles) (s : PipeState)
    (t : Nat) (chunk : Frame)
    (hst : s.state = .SPEAKING) (hsp : o.vad chunk = some true) :
    (VoicePipeline.step cfg o s (.frame t chunk)).log =
        s.log ++ [.sinkStop, .setState .LISTENING] ∧
    (VoicePipeline.step cfg o s (.frame t chunk)).state = .LISTENING ∧
    (VoicePipeline.step cfg o s (.frame t chunk)).voice_buffer = [chunk] := by
  simp [VoicePipeline.step, hsp, hst]

/-- A pipeline mid-reply: state `SPEAKING` with a stale two-frame buffer
and a task about to finish. -/
def speakingState : PipeState :=
  { state := .SPEAKING, voice_buffer := [silenceFrame, silenceFrame],
    speech_started_at := 500, silence_started_at := 0,
    conversation_history := [.human "hi"], task := some .finishPhase, log := [] }

/-- Witness for C2: interrupting `speakingState` with a concrete speech
frame stops the sink, moves to `LISTENING` and leaves a one-frame buffer. -/
theorem C2_interruption_witness :
    (VoicePipeline.step cfg0 oracle0 speakingState (.frame 2000 speechFrame)).log =
        [Act.sinkStop, Act.setState .LISTENING] ∧
    (VoicePipeline.step cfg0 oracle0 speakingState (.frame 2000 speechFrame)).state =
        .LISTENING ∧
    (VoicePipeline.step cfg0 oracle0 speakingState (.frame 2000 speechFrame)).voice_buffer =
        [speechFrame] := by
  have h := C2_interruption cfg0 oracle0 speakingState 2000 speechFrame rfl rfl
  simpa [speakingState] using h

/-- C3 (amended): from `LISTENING`, a frame event at time `t` triggers
the transition to `PROCESSING` exactly when the listening duration
STRICTLY exceeds `max_phrase_duration` (the source compares with `>`,
not `≥`), or the silence timer is running and the silence duration
reaches `end_of_speech_timeout` (`≥`, as claimed); the silence timer is
first cleared or started according to the frame's classification. -/
theorem C3_listening_transition (cfg : PipelineConfig) (o : Oracles) (s : PipeState)
    (t : Nat) (chunk : Frame) (sp : Bool)
    (hst : s.state = .LISTENING) (hv : o.vad chunk = some sp) :
    ((VoicePipeline.step cfg o s (.frame t chunk)).state = .PROCESSING ↔
      (cfg.max_phrase_duration < t - s.speech_started_at ∨
        (0 < (if sp then 0 else if s.silence_started_at = 0 then t
              else s.silence_started_at) ∧
          cfg.end_of_speech_timeout ≤
            t - (if sp then 0 else if s.silence_started_at = 0 then t
                 else s.silence_started_at)))) := by
  cases sp <;> simp [VoicePipeline.step, hv, hst] <;>
    split_ifs <;> simp_all

/-- A pipeline that has been listening since `t = 1000` and silent since
`t = 1100`. -/
def listeningState : PipeState :=
  { state := .LISTENING, voice_buffer := [speechFrame],
    speech_started_at := 1000, silence_started_at := 1100,
    conversation_history := [], task := none, log := [] }

/-- Witness for C3: at `t = 2000` the silence duration is 900 ms ≥ the
800 ms timeout, so the silence frame takes the edge to `PROCESSING`. -/
theorem C3_listening_transition_witness :
    (VoicePipeline.step cfg0 oracle0 listeningState (.frame 2000 silenceFrame)).state =
      .PROCESSING :=
  (C3_listening_transition cfg0 oracle0 listeningState 2000 silenceFrame false
    rfl rfl).mpr (by decide)

/-- C3 counterexample: with continuous speech, at the instant the
listening duration EQUALS `max_phrase_duration` (20000 ms here) the
claim demands the transition (`≥`), but the source's strict `>` keeps
the pipeline in `LISTENING`. -/
theorem C3_counterexample :
    cfg0.max_phrase_duration ≤
        21000 - listeningState.speech_started_at ∧
    (VoicePipeline.step cfg0 oracle0 listeningState (.frame 21000 speechFrame)).state ≠
        .PROCESSING := by
  constructor <;> decide

/-- A full uninterrupted turn from the initial state: one speech frame,
one silence frame, a poll that hits the end-of-speech timeout, and the
four task steps (STT, one audio chunk, `join`, completion block). -/
def evsComplete : List Ev :=
  [.frame 1000 speechFrame, .frame 1020 silenceFrame, .timeoutPoll 2000,
   .taskStep, .taskStep, .taskStep, .taskStep]

/-- C4 (code bug): the uninterrupted run completes — `AudioSink.join()`
is called and the state returns to `IDLE` — yet the conversation history
ends holding only the user message: pipeline.py line 129 is a literal
`TODO: Add full AI response to history`, and no `AIMessage` is ever
appended, contradicting the claim's third conjunct. -/
theorem C4_no_assistant_append :
    (VoicePipeline.runEvents cfg0 oracle0 VoicePipeline.start evsComplete).log.contains
        Act.sinkJoin = true ∧
    (VoicePipeline.runEvents cfg0 oracle0 VoicePipeline.start evsComplete).state =
        .IDLE ∧
    (VoicePipeline.runEvents cfg0 oracle0 VoicePipeline.start evsComplete).conversation_history =
        [Msg.human "hi"] ∧
    ((VoicePipeline.runEvents cfg0 oracle0 VoicePipeline.start
        evsComplete).conversation_history.all isHumanMsg) = true := by
  refine ⟨?_, ?_, ?_, ?_⟩ <;> rfl

/-- C5: when STT yields a blank transcript, the single task step moves
the state from `PROCESSING` to `IDLE`, leaves the conversation history
untouched, terminates the task, and adds no `llm.stream`, `tts.stream`
or playback action to the log — only the state write. -/
theorem C5_whitespace_transcript (cfg : PipelineConfig) (o : Oracles) (s : PipeState)
    (audio : List Frame) (w : String)
    (htask : s.task = some (.sttPhase audio))
    (hstt : o.stt audio = some w)
    (hw : pyStrip w = "")
    (hst : s.state = .PROCESSING) :
    (VoicePipeline.step cfg o s .taskStep).state = .IDLE ∧
    (VoicePipeline.step cfg o s .taskStep).conversation_history =
        s.conversation_history ∧
    (VoicePipeline.step cfg o s .taskStep).task = none ∧
    (VoicePipeline.step cfg o s .taskStep).log = s.log ++ [.setState .IDLE] := by
  have := hst
  simp [VoicePipeline.step, htask, hstt, hw]

/-- Collaborators whose STT returns the whitespace transcript. -/
def oracleBlank : Oracles :=
  { vad := vad0, stt := fun _ => some "   ", tts := fun _ _ => [some 7] }

/-- A pipeline that has just handed a one-frame buffer to the task. -/
def processingState : PipeState :=
  { state := .PROCESSING, voice_buffer := [],
    speech_started_at := 1000, silence_started_at := 1100,
    conversation_history := [.human "earlier"], task := some (.sttPhase [speechFrame]),
    log := [] }

/-- Witness for C5 with the transcript made of three spaces. -/
theorem C5_whitespace_transcript_witness :
    (VoicePipeline.step cfg0 oracleBlank processingState .taskStep).state = .IDLE ∧
    (VoicePipeline.step cfg0 oracleBlank processingState .taskStep).conversation_history =
        [Msg.human "earlier"] ∧
    (VoicePipeline.step cfg0 oracleBlank processingState .taskStep).task = none ∧
    (VoicePipeline.step cfg0 oracleBlank processingState .taskStep).log =
        [Act.setState .IDLE] := by
  have h := C5_whitespace_transcript cfg0 oracleBlank processingState [speechFrame]
    "   " rfl rfl rfl rfl
  simpa [processingState] using h

/-- One step of the system extends the conversation history, if at all,
only with `HumanMessage`s. -/
theorem history_step (cfg : PipelineConfig) (o : Oracles) (s : PipeState) (e : Ev) :
    ∃ l, (VoicePipeline.step cfg o s e).conversation_history =
        s.conversation_history ++ l ∧ l.all isHumanMsg = true := by
  cases e with
  | frame t chunk =>
      cases hv : o.vad chunk with
      | none => exact ⟨[], by simp [VoicePipeline.step, hv]⟩
      | some sp =>
          simp only [VoicePipeline.step, hv]
          split_ifs <;> exact ⟨[], by simp⟩
  | timeoutPoll t =>
      simp only [VoicePipeline.step]
      split_ifs <;> exact ⟨[], by simp⟩
  | stopCall => exact ⟨[], by simp [VoicePipeline.step]⟩
  | taskStep =>
      cases ht : s.task with
      | none => exact ⟨[], by simp [VoicePipeline.step, ht]⟩
      | some ph =>
          cases ph with
          | sttPhase audio =>
              cases hstt : o.stt audio with
              | none => exact ⟨[], by simp [VoicePipeline.step, ht, hstt]⟩
              | some user_text =>
                  simp only [VoicePipeline.step, ht, hstt]
                  split_ifs
                  · exact ⟨[], by simp⟩
                  · exact ⟨[.human user_text], by simp [isHumanMsg]⟩
          | playPhase stream =>
              rcases stream with _ | ⟨_ | c, rest⟩ <;>
                simp only [VoicePipeline.step, ht]
              · exact ⟨[], by simp⟩
              · exact ⟨[], by simp⟩
              · split_ifs <;> exact ⟨[], by simp⟩
          | finishPhase =>
              simp only [VoicePipeline.step, ht]
              split_ifs <;> exact ⟨[], by simp⟩

/-- C8 (amended): over any run, the conversation history is only ever
extended, and only with user messages — the user transcript is appended
before streaming begins, so an interrupted or failed turn still leaves
it in the history, and no assistant message is ever appended. -/
theorem C8_history_appends_only_user (cfg : PipelineConfig) (o : Oracles)
    (s : PipeState) (evs : List Ev) :
    ∃ l, (VoicePipeline.runEvents cfg o s evs).conversation_history =
        s.conversation_history ++ l ∧ l.all isHumanMsg = true := by
  induction evs generalizing s with
  | nil => exact ⟨[], by simp [VoicePipeline.runEvents]⟩
  | cons e rest ih =>
      obtain ⟨l1, h1, hall1⟩ := history_step cfg o s e
      obtain ⟨l2, h2, hall2⟩ := ih (VoicePipeline.step cfg o s e)
      refine ⟨l1 ++ l2, ?_, ?_⟩
      · simp only [VoicePipeline.runEvents]
        rw [h2, h1, List.append_assoc]
      · simp only [List.all_append, hall1, hall2, Bool.and_self]

/-- A turn interrupted mid-reply, run from the initial state: the turn
starts as in `evsComplete`, the task begins speaking, then a speech
frame barges in (sink stopped, state stolen to `LISTENING`) and the
task's next chunk check makes it exit without reaching `join()`. -/
def evsInterrupted : List Ev :=
  [.frame 1000 speechFrame, .frame 1020 silenceFrame, .timeoutPoll 2000,
   .taskStep, .frame 2100 speechFrame, .taskStep]

/-- C8 counterexample: the interrupted turn (the sink was stopped and
`join()` was never reached) nevertheless changed the conversation
history — the user message was appended before streaming — so the claim
that an interrupted turn leaves the history unchanged is false. -/
theorem C8_counterexample :
    (VoicePipeline.runEvents cfg0 oracle0 VoicePipeline.start evsInterrupted).log.contains
        Act.sinkStop = true ∧
    (VoicePipeline.runEvents cfg0 oracle0 VoicePipeline.start evsInterrupted).log.contains
        Act.sinkJoin = false ∧
    (VoicePipeline.runEvents cfg0 oracle0 VoicePipeline.start evsInterrupted).conversation_history =
        [Msg.human "hi"] ∧
    VoicePipeline.start.conversation_history = [] := by
  refine ⟨?_, ?_, ?_, ?_⟩ <;> rfl

/-- The section-8 scenario: 5 speech frames then 40 silence frames, all
320 bytes, delivered 20 ms apart starting at `t = 1000` ms, followed by
the `queue.Empty` poll that observes the 0.8 s silence timeout. -/
def evsScenario : List Ev :=
  ((List.range 45).map (fun i =>
      Ev.frame (1000 + 20 * i) (List.replicate 320 (if i < 5 then 1 else 0)))) ++
    [.timeoutPoll 1980]

/-- C9 counterexample: in the 5-speech/40-silence scenario the single
handed-off buffer holds 45 frames, not the claimed 5 — the `LISTENING`
branch appends every frame, silence included, to `voice_buffer`. -/
theorem C9_counterexample :
    (handedBuffers (VoicePipeline.runEvents cfg0 oracle0 VoicePipeline.start
        evsScenario).log).map List.length = [45] ∧ (45 ≠ 5) := by
  constructor
  · rfl
  · decide

/-- C9 (amended): the scenario produces exactly one
`LISTENING → PROCESSING` transition, and the buffer handed to the
utterance-processing task contains all 45 frames received while
listening — the 5 speech frames followed by the 40 silence frames. -/
theorem C9_scenario :
    edgeCount .LISTENING .PROCESSING
        (VoicePipeline.stateTrace cfg0 oracle0 VoicePipeline.start evsScenario) = 1 ∧
    handedBuffers (VoicePipeline.runEvents cfg0 oracle0 VoicePipeline.start
        evsScenario).log =
      [(List.range 45).map (fun i => List.replicate 320 (if i < 5 then 1 else 0))] := by
  constructor <;> rfl

end Minichain
